import Mathlib

/-
Verification of the BACnet Local Schedule Object sample
(samples/LocalScheduleObject.py): the date pattern matchers, the
reliability checker and the schedule interpreter are embedded as
executable Lean functions, and the behavioural claims about them are
settled as theorems.

Machine conventions of the embedding:
* Python 4-tuples for dates and times become the structures DateTuple
  and TimeTuple; Python tuple comparison (lexicographic) becomes the
  explicit Boolean functions tripleLe and timeLe.
* bacpypes atomic values (Null, Boolean, Unsigned, Integer, Real,
  Double, Enumerated, CharacterString) become the inductive SchedValue;
  Real and Double payloads are carried as numeric stand-ins, since no
  behaviour of this program computes with them - only identity of the
  runtime class matters, which SchedValue.classOf captures.
* A raised Python exception becomes Except.error (); returning the
  Python value None becomes Except.ok none.
-/

deriving instance DecidableEq for Except

/-- A BACnet time as used by the sample: four octets
(hour, minute, second, hundredth). -/
structure TimeTuple where
  hour : Nat
  minute : Nat
  second : Nat
  hundredth : Nat
deriving DecidableEq, Repr

/-- A BACnet date as used by the sample: four octets
(year offset from 1900, month, day, day of week with Monday = 1). -/
structure DateTuple where
  year : Nat
  month : Nat
  day : Nat
  dayOfWeek : Nat
deriving DecidableEq, Repr

/-- Python tuple comparison on four-octet times: lexicographic, first
differing field decides (used for tval <= etime in eval). -/
def timeLe (a b : TimeTuple) : Bool :=
  if a.hour ≠ b.hour then decide (a.hour < b.hour)
  else if a.minute ≠ b.minute then decide (a.minute < b.minute)
  else if a.second ≠ b.second then decide (a.second < b.second)
  else decide (a.hundredth ≤ b.hundredth)

/-- Python tuple comparison on (year, month, day) triples: lexicographic
(used by match_date_range on date[:3]). -/
def tripleLe (a b : Nat × Nat × Nat) : Bool :=
  if a.1 ≠ b.1 then decide (a.1 < b.1)
  else if a.2.1 ≠ b.2.1 then decide (a.2.1 < b.2.1)
  else decide (a.2.2 ≤ b.2.2)

/-- The first three fields of a date, date[:3] in the source. -/
def dateTriple (d : DateTuple) : Nat × Nat × Nat := (d.year, d.month, d.day)

/-- The runtime class of a bacpypes atomic value, as used by
isinstance checks and by schedule_default.__class__. -/
inductive ValClass where
  | nullC
  | booleanC
  | unsignedC
  | integerC
  | realC
  | doubleC
  | enumeratedC
  | charStringC
deriving DecidableEq, Repr

/-- A bacpypes atomic value carried by a schedule entry or by
scheduleDefault.  Null is the relinquish sentinel. -/
inductive SchedValue where
  | null
  | boolean (b : Bool)
  | unsigned (v : Nat)
  | integer (v : Int)
  | real (v : Int)
  | double (v : Int)
  | enumerated (v : Nat)
  | charString (s : String)
deriving DecidableEq, Repr

/-- The runtime class of a value (the value.__class__ of the source). -/
def SchedValue.classOf : SchedValue → ValClass
  | .null => .nullC
  | .boolean _ => .booleanC
  | .unsigned _ => .unsignedC
  | .integer _ => .integerC
  | .real _ => .realC
  | .double _ => .doubleC
  | .enumerated _ => .enumeratedC
  | .charString _ => .charStringC

/-- isinstance(value, Null) of the source. -/
def SchedValue.isNull : SchedValue → Bool
  | .null => true
  | _ => false

/-- Gregorian leap year test, as used by Python calendar.monthrange. -/
def isLeapYear (y : Nat) : Bool :=
  (y % 4 == 0 && y % 100 != 0) || y % 400 == 0

/-- calendar.monthrange(y, m)[1]: the number of days of month m of
Gregorian year y.  Every result is at least 28, so the Nat
subtractions in weekOfMonthMatch agree with Python integers. -/
def monthLength (y m : Nat) : Nat :=
  if m = 2 then (if isLeapYear y then 29 else 28)
  else if m = 4 ∨ m = 6 ∨ m = 9 ∨ m = 11 then 30
  else 31

/-- The year field check of match_date: 255 is any year, otherwise the
years must be equal. -/
def yearMatch (y yp : Nat) : Bool :=
  if yp = 255 then true
  else y == yp

/-- The month field check shared by match_date and match_weeknday:
255 any month, 13 odd months, 14 even months, otherwise exact. -/
def monthMatch (m mp : Nat) : Bool :=
  if mp = 255 then true
  else if mp = 13 then !(m % 2 == 0)
  else if mp = 14 then !(m % 2 == 1)
  else m == mp

/-- The day field check of match_date: 255 any day, 32 the last day of
the month, 33 odd days, 34 even days, otherwise exact. -/
def dayMatch (lastDay d dp : Nat) : Bool :=
  if dp = 255 then true
  else if dp = 32 then d == lastDay
  else if dp = 33 then !(d % 2 == 0)
  else if dp = 34 then !(d % 2 == 1)
  else d == dp

/-- The day-of-week field check of match_date and match_weeknday:
255 any day, otherwise exact. -/
def dowMatch (w wp : Nat) : Bool :=
  if wp = 255 then true
  else w == wp

/-- match_date of the source: match a concrete date against a date
pattern field by field, an early return False becoming a failed
conjunct.  The last day of the month is taken from
calendar.monthrange(year + 1900, month). -/
def match_date (date : DateTuple) (pat : DateTuple) : Bool :=
  yearMatch date.year pat.year
  && monthMatch date.month pat.month
  && dayMatch (monthLength (date.year + 1900) date.month) date.day pat.day
  && dowMatch date.dayOfWeek pat.dayOfWeek

/-- A DateRange: a start date and an end date. -/
structure DateRange where
  startDate : DateTuple
  endDate : DateTuple
deriving DecidableEq, Repr

/-- match_date_range of the source:
date[:3] >= startDate[:3] and date[:3] <= endDate[:3]. -/
def match_date_range (date : DateTuple) (r : DateRange) : Bool :=
  tripleLe (dateTriple r.startDate) (dateTriple date)
  && tripleLe (dateTriple date) (dateTriple r.endDate)

/-- A BACnetWeekNDay: three octets (month, week of month, day of week). -/
structure WeekNDay where
  month : Nat
  weekOfMonth : Nat
  dayOfWeek : Nat
deriving DecidableEq, Repr

/-- The week-of-month check of match_weeknday.  The if-elif chain of the
source has no final else: an octet outside {1..9, 255} falls through
every branch and the check passes. -/
def weekOfMonthMatch (lastDay d wkp : Nat) : Bool :=
  if wkp = 255 then true
  else if wkp = 1 then !(decide (d > 7))
  else if wkp = 2 then !(decide (d < 8) || decide (d > 14))
  else if wkp = 3 then !(decide (d < 15) || decide (d > 21))
  else if wkp = 4 then !(decide (d < 22) || decide (d > 28))
  else if wkp = 5 then !(decide (d < 29) || decide (d > 31))
  else if wkp = 6 then !(decide (d < lastDay - 6))
  else if wkp = 7 then !(decide (d < lastDay - 13) || decide (d > lastDay - 7))
  else if wkp = 8 then !(decide (d < lastDay - 20) || decide (d > lastDay - 14))
  else if wkp = 9 then !(decide (d < lastDay - 27) || decide (d > lastDay - 21))
  else true

/-- match_weeknday of the source: month, week of month and day of week
checks over a concrete date. -/
def match_weeknday (date : DateTuple) (w : WeekNDay) : Bool :=
  monthMatch date.month w.month
  && weekOfMonthMatch (monthLength (date.year + 1900) date.month) date.day w.weekOfMonth
  && dowMatch date.dayOfWeek w.dayOfWeek

/-- A CalendarEntry: exactly one of a date pattern, a date range or a
WeekNDay is populated; unpopulated models an entry with none of the
three attributes set, on which the source raises RuntimeError. -/
inductive CalendarEntry where
  | date (pat : DateTuple)
  | dateRange (r : DateRange)
  | weekNDay (w : WeekNDay)
  | unpopulated
deriving DecidableEq, Repr

/-- date_in_calendar_entry of the source: dispatch on the populated
variant; none yields the raised RuntimeError, modelled as none. -/
def date_in_calendar_entry (date : DateTuple) (entry : CalendarEntry) : Option Bool :=
  match entry with
  | .date pat => some (match_date date pat)
  | .dateRange r => some (match_date_range date r)
  | .weekNDay w => some (match_weeknday date w)
  | .unpopulated => none

/-- A (time, value) pair of a daily or exception schedule. -/
structure TimeValue where
  time : TimeTuple
  value : SchedValue
deriving DecidableEq, Repr

/-- A DailySchedule: the list of TimeValues of one day-of-week slot. -/
structure DailySchedule where
  daySchedule : List TimeValue
deriving DecidableEq, Repr

/-- The period of a SpecialEvent: an inline calendar entry, a reference
to a Calendar Object, or missing (period None, on which eval raises). -/
inductive SpecialEventPeriod where
  | calendarEntry (entry : CalendarEntry)
  | calendarReference (ref : Nat)
  | missing
deriving DecidableEq, Repr

/-- A SpecialEvent of the exception schedule. -/
structure SpecialEvent where
  period : SpecialEventPeriod
  listOfTimeValues : List TimeValue
  priority : Nat
deriving DecidableEq, Repr

/-- The resolved datatype of a referenced property, as returned by
get_datatype: either an atomic class or an array of an atomic class.
Modelled from the spec: the Object Directory operation
datatype_of(object_type, property_id) -> Optional[Datatype] is supplied
by bacpypes.object.get_datatype, which is outside the sample source. -/
inductive PropDatatype where
  | atomic (c : ValClass)
  | arrayOf (sub : ValClass)
deriving DecidableEq, Repr

/-- A DeviceObjectPropertyReference as consumed by the reliability
check: the fields it reads. -/
structure PropRef where
  objectType : Nat
  propertyIdentifier : Nat
  propertyArrayIndex : Option Nat
deriving DecidableEq, Repr

/-- An Object Directory view answering get_datatype queries. -/
def PropDirectory := Nat → Nat → Option PropDatatype

/-- The reliability states the checker can produce. -/
inductive Reliability where
  | noFaultDetected
  | configurationError
deriving DecidableEq, Repr

/-- The Schedule Object configuration read by the checker and the
interpreter.  weeklySchedule, when present, is the seven-element
array of DailySchedules. -/
structure ScheduleObject where
  effectivePeriod : DateRange
  weeklySchedule : Option (List DailySchedule)
  exceptionSchedule : Option (List SpecialEvent)
  scheduleDefault : Option SchedValue
  listOfObjectPropertyReferences : Option (List PropRef)
  reliability : Reliability
  presentValue : Option SchedValue
deriving DecidableEq, Repr

/-- 255 in time_value.time: some octet of the time is the wildcard. -/
def timeHasWildcard (t : TimeTuple) : Bool :=
  t.hour == 255 || t.minute == 255 || t.second == 255 || t.hundredth == 255

/-- The weekly-schedule entry test of _check_reliability: the value is
Null or of the schedule datatype class, and the time has no wildcard
octet (either failure raises, coalescing to configurationError). -/
def weeklyTimeValueOk (cls : ValClass) (tv : TimeValue) : Bool :=
  (tv.value.classOf == .nullC || tv.value.classOf == cls)
  && !(timeHasWildcard tv.time)

/-- The exception-schedule entry test of _check_reliability: the value
is Null or of the schedule datatype class (no time check here). -/
def exceptionTimeValueOk (cls : ValClass) (tv : TimeValue) : Bool :=
  tv.value.classOf == .nullC || tv.value.classOf == cls

/-- The property-reference test of _check_reliability: resolve the
datatype with get_datatype (an unresolvable reference makes
issubclass(None, Array) raise, hence fails); with an array index,
index 0 means Unsigned and any other index the element type; the
result must be the schedule datatype class itself. -/
def propRefOk (dir : PropDirectory) (cls : ValClass) (r : PropRef) : Bool :=
  match dir r.objectType r.propertyIdentifier with
  | none => false
  | some (.atomic c) => c == cls
  | some (.arrayOf sub) =>
    match r.propertyArrayIndex with
    | none => false
    | some 0 => cls == .unsignedC
    | some (_ + 1) => sub == cls

/-- _check_reliability of the source: any raised check coalesces to
configurationError through the surrounding try/except, a full pass
yields noFaultDetected.  Every modelled value is atomic, so the
isinstance(schedule_default, Atomic) test cannot fail here; note the
source tests schedule_default against Python None only, so a Null
default passes and fixes Null as the schedule datatype class. -/
def check_reliability (dir : PropDirectory) (obj : ScheduleObject) : Reliability :=
  match obj.scheduleDefault with
  | none => .configurationError
  | some sd =>
    if obj.weeklySchedule.isNone && obj.exceptionSchedule.isNone then .configurationError
    else
      let cls := sd.classOf
      if ((obj.weeklySchedule.getD []).all (fun ds =>
            ds.daySchedule.all (weeklyTimeValueOk cls)))
        && ((obj.exceptionSchedule.getD []).all (fun se =>
            se.listOfTimeValues.all (exceptionTimeValueOk cls)))
        && ((obj.listOfObjectPropertyReferences.getD []).all (propRefOk dir cls))
      then .noFaultDetected
      else .configurationError

/-- The Object Directory view resolving Calendar Object references to
their dateList, as sched_obj._app.get_object_id does in the source. -/
def CalendarDirectory := Nat → Option (List CalendarEntry)

/-- The initial 16-slot event priority table, [None] * 16. -/
def initSlots : List (Option SchedValue) := List.replicate 16 none

/-- The Python list index used by event_priority[priority - 1]:
priority 0 gives Python index -1, which wraps to slot 15; priorities
above 16 give an out-of-range index, on which assignment raises. -/
def pyIndex (priority : Nat) : Option Nat :=
  if priority = 0 then some 15
  else if priority ≤ 16 then some (priority - 1)
  else none

/-- The inner loop of the exception scan: each TimeValue whose time is
at or before etime assigns the slot of the event priority, Null
clearing it and any other value filling it; the assignment itself
raises IndexError when the priority index is out of range. -/
def scanTimeValues (etime : TimeTuple) (priority : Nat) :
    List TimeValue → List (Option SchedValue) → Except Unit (List (Option SchedValue))
  | [], slots => .ok slots
  | tv :: rest, slots =>
    if timeLe tv.time etime then
      match pyIndex priority with
      | some i =>
        scanTimeValues etime priority rest
          (slots.set i (if tv.value.isNull then none else some tv.value))
      | none => .error ()
    else scanTimeValues etime priority rest slots

/-- The dateList loop of the calendar-reference branch: entries are
tested in order, the first hit stops the loop, and a malformed entry
raises out of the loop. -/
def anyEntryMatch (edate : DateTuple) : List CalendarEntry → Except Unit Bool
  | [] => .ok false
  | entry :: rest =>
    match date_in_calendar_entry edate entry with
    | none => .error ()
    | some true => .ok true
    | some false => anyEntryMatch edate rest

/-- The period test of one SpecialEvent: a missing period raises, an
inline calendar entry is tested directly, and a calendar reference is
resolved through the directory (an unresolvable reference raises). -/
def eventMatch (dir : CalendarDirectory) (edate : DateTuple) (ev : SpecialEvent) :
    Except Unit Bool :=
  match ev.period with
  | .missing => .error ()
  | .calendarEntry entry =>
    match date_in_calendar_entry edate entry with
    | some b => .ok b
    | none => .error ()
  | .calendarReference ref =>
    match dir ref with
    | none => .error ()
    | some dateList => anyEntryMatch edate dateList

/-- The exception scan of eval: events are processed in declaration
order, each matching event folding its listOfTimeValues into the slot
table. -/
def scanEvents (dir : CalendarDirectory) (edate : DateTuple) (etime : TimeTuple) :
    List SpecialEvent → List (Option SchedValue) → Except Unit (List (Option SchedValue))
  | [], slots => .ok slots
  | ev :: rest, slots =>
    match eventMatch dir edate ev with
    | .error e => .error e
    | .ok false => scanEvents dir edate etime rest slots
    | .ok true =>
      match scanTimeValues etime ev.priority ev.listOfTimeValues slots with
      | .error e => .error e
      | .ok slots2 => scanEvents dir edate etime rest slots2

/-- The priority reduction of eval: the first slot holding a value,
scanning from priority 1 upward. -/
def firstPresent : List (Option SchedValue) → Option SchedValue
  | [] => none
  | none :: rest => firstPresent rest
  | some v :: _ => some v

/-- The daily-schedule loop of eval: every TimeValue at or before etime
overwrites the running value, Null reverting it to scheduleDefault. -/
def weeklyLoop (dflt : Option SchedValue) (etime : TimeTuple) :
    List TimeValue → Option SchedValue → Option SchedValue
  | [], acc => acc
  | tv :: rest, acc =>
    weeklyLoop dflt etime rest
      (if timeLe tv.time etime then
        (if tv.value.isNull then dflt else some tv.value)
       else acc)

/-- The weekly fallback of eval: the running value starts at
scheduleDefault; with a weekly schedule present, the day-of-week slot
is consulted.  Modelled from the spec: a bacpypes ArrayOf is 1-indexed
(element 0 is its length), so weeklySchedule[date.dayOfWeek] is list
element dayOfWeek - 1, and dayOfWeek 0 or an index past the array
raises. -/
def weeklyFallback (obj : ScheduleObject) (edate : DateTuple) (etime : TimeTuple) :
    Except Unit (Option SchedValue) :=
  match obj.weeklySchedule with
  | none => .ok obj.scheduleDefault
  | some ws =>
    if edate.dayOfWeek = 0 then .error ()
    else
      match ws.get? (edate.dayOfWeek - 1) with
      | none => .error ()
      | some daily =>
        .ok (weeklyLoop obj.scheduleDefault etime daily.daySchedule obj.scheduleDefault)

/-- eval of LocalScheduleInterpreter: the effective-period gate, the
exception scan over the priority slot table, the priority reduction,
and the weekly fallback.  Except.error models a raised exception,
ok none the Python return value None. -/
def eval (dir : CalendarDirectory) (obj : ScheduleObject)
    (edate : DateTuple) (etime : TimeTuple) : Except Unit (Option SchedValue) :=
  if match_date_range edate obj.effectivePeriod then
    match scanEvents dir edate etime (obj.exceptionSchedule.getD []) initSlots with
    | .error e => .error e
    | .ok slots =>
      match firstPresent slots with
      | some v => .ok (some v)
      | none => weeklyFallback obj edate etime
  else .ok none

/-- process_task of LocalScheduleInterpreter: return untouched unless
reliability is noFaultDetected, otherwise evaluate at the current date
and time and store a non-None result into presentValue. -/
def process_task (dir : CalendarDirectory) (obj : ScheduleObject)
    (edate : DateTuple) (etime : TimeTuple) : Except Unit ScheduleObject :=
  if obj.reliability ≠ .noFaultDetected then .ok obj
  else
    match eval dir obj edate etime with
    | .error e => .error e
    | .ok none => .ok obj
    | .ok (some v) => .ok { obj with presentValue := some v }

/-- A directory resolving nothing, for configurations that reference
no calendar objects. -/
def emptyCalDir : CalendarDirectory := fun _ => none

/-- A property directory resolving nothing, for configurations with no
property references. -/
def emptyPropDir : PropDirectory := fun _ _ => none

/-- Lexicographic order on (year, month, day) triples, stated the way
the spec words it: strictly earlier year, or same year and strictly
earlier month, or same year and month and a day at most the other. -/
def lex3 (a b : Nat × Nat × Nat) : Prop :=
  a.1 < b.1 ∨ (a.1 = b.1 ∧ (a.2.1 < b.2.1 ∨ (a.2.1 = b.2.1 ∧ a.2.2 ≤ b.2.2)))

instance (a b : Nat × Nat × Nat) : Decidable (lex3 a b) := by
  unfold lex3; infer_instance

/-- Modelled from the spec: the value the exception scan is said to
leave in a priority slot - among the TimeValues at or before the query
time, the one with the chronologically latest time (a later declaration
winning a tie) determines the slot, absent when its value is Null or
when no TimeValue qualifies. -/
def latestValue (etime : TimeTuple) (tvs : List TimeValue) : Option SchedValue :=
  let pick := tvs.foldl
    (fun best tv =>
      if timeLe tv.time etime then
        match best with
        | none => some tv
        | some b => if timeLe b.time tv.time then some tv else some b
      else best)
    none
  match pick with
  | none => none
  | some tv => if tv.value.isNull then none else some tv.value

/-- Invariant I2 of the spec: at least one of the weekly and exception
schedules is present. -/
def specI2 (obj : ScheduleObject) : Prop :=
  obj.weeklySchedule.isSome ∨ obj.exceptionSchedule.isSome

/-- Invariant I3 of the spec: every non-Null value appearing in any
TimeValue of a weekly or exception schedule has the schedule datatype
class. -/
def specI3 (obj : ScheduleObject) (cls : ValClass) : Prop :=
  (∀ ds ∈ obj.weeklySchedule.getD [], ∀ tv ∈ ds.daySchedule,
    tv.value.classOf = .nullC ∨ tv.value.classOf = cls)
  ∧ (∀ se ∈ obj.exceptionSchedule.getD [], ∀ tv ∈ se.listOfTimeValues,
    tv.value.classOf = .nullC ∨ tv.value.classOf = cls)

/-- Invariant I4 of the spec: no wildcard octet appears in any
weekly-schedule Time. -/
def specI4 (obj : ScheduleObject) : Prop :=
  ∀ ds ∈ obj.weeklySchedule.getD [], ∀ tv ∈ ds.daySchedule,
    timeHasWildcard tv.time = false

/-- The declared type the spec assigns to a property reference: the
resolved property type, or with an array index the element type (index
0 meaning Unsigned); an unresolvable reference, or an array reference
without an index, has no usable type. -/
def specRefDatatype (dir : PropDirectory) (r : PropRef) : Option ValClass :=
  match dir r.objectType r.propertyIdentifier with
  | none => none
  | some (.atomic c) => some c
  | some (.arrayOf sub) =>
    match r.propertyArrayIndex with
    | none => none
    | some 0 => some .unsignedC
    | some (_ + 1) => some sub

/-- Invariant I5 of the spec: every property reference's declared type
equals the schedule datatype class. -/
def specI5 (dir : PropDirectory) (obj : ScheduleObject) (cls : ValClass) : Prop :=
  ∀ r ∈ obj.listOfObjectPropertyReferences.getD [],
    specRefDatatype dir r = some cls

/-- Invariant I6 of the spec: exception priorities lie in 1..16. -/
def specI6 (obj : ScheduleObject) : Prop :=
  ∀ se ∈ obj.exceptionSchedule.getD [], 1 ≤ se.priority ∧ se.priority ≤ 16

instance (obj : ScheduleObject) : Decidable (specI2 obj) := by
  unfold specI2; infer_instance

instance (obj : ScheduleObject) (cls : ValClass) : Decidable (specI3 obj cls) := by
  unfold specI3; infer_instance

instance (obj : ScheduleObject) : Decidable (specI4 obj) := by
  unfold specI4; infer_instance

instance (dir : PropDirectory) (obj : ScheduleObject) (cls : ValClass) :
    Decidable (specI5 dir obj cls) := by
  unfold specI5; infer_instance

instance (obj : ScheduleObject) : Decidable (specI6 obj) := by
  unfold specI6; infer_instance

/-- The S1 weekly-only configuration of the spec, scenario checks. -/
def s1Daily : DailySchedule :=
  ⟨[⟨⟨8, 0, 0, 0⟩, .integer 8⟩, ⟨⟨14, 0, 0, 0⟩, .null⟩, ⟨⟨17, 0, 0, 0⟩, .integer 42⟩]⟩

def s1Obj : ScheduleObject :=
  { effectivePeriod := ⟨⟨0, 1, 1, 1⟩, ⟨254, 12, 31, 2⟩⟩
    weeklySchedule := some [s1Daily, s1Daily, s1Daily, s1Daily, s1Daily, s1Daily, s1Daily]
    exceptionSchedule := none
    scheduleDefault := some (.integer 0)
    listOfObjectPropertyReferences := none
    reliability := .noFaultDetected
    presentValue := none }

/-- The S3 relinquish scenario of the spec: priority 3 relinquishes at
noon, revealing priority 6. -/
def s3Obj : ScheduleObject :=
  { effectivePeriod := ⟨⟨0, 1, 1, 1⟩, ⟨254, 12, 31, 2⟩⟩
    weeklySchedule := none
    exceptionSchedule := some
      [ ⟨.calendarEntry (.date ⟨255, 255, 255, 255⟩),
          [⟨⟨9, 0, 0, 0⟩, .integer 77⟩, ⟨⟨12, 0, 0, 0⟩, .null⟩], 3⟩,
        ⟨.calendarEntry (.date ⟨255, 255, 255, 255⟩),
          [⟨⟨10, 0, 0, 0⟩, .integer 55⟩], 6⟩ ]
    scheduleDefault := some (.integer 0)
    listOfObjectPropertyReferences := none
    reliability := .noFaultDetected
    presentValue := none }

/-- The C4 configuration: the S1 schedule restricted to an effective
period covering only year 2020 (offset 120). -/
def c4Obj : ScheduleObject :=
  { s1Obj with effectivePeriod := ⟨⟨120, 1, 1, 3⟩, ⟨120, 12, 31, 4⟩⟩ }

/-- The C1 daily schedule in declared order: the 8:00 entry before the
7:00 entry. -/
def c1DailyA : DailySchedule :=
  ⟨[⟨⟨8, 0, 0, 0⟩, .integer 1⟩, ⟨⟨7, 0, 0, 0⟩, .integer 2⟩]⟩

/-- The same two entries permuted into chronological order. -/
def c1DailyB : DailySchedule :=
  ⟨[⟨⟨7, 0, 0, 0⟩, .integer 2⟩, ⟨⟨8, 0, 0, 0⟩, .integer 1⟩]⟩

/-- A weekly-only configuration around a given daily schedule. -/
def c1Obj (daily : DailySchedule) : ScheduleObject :=
  { effectivePeriod := ⟨⟨0, 1, 1, 1⟩, ⟨254, 12, 31, 2⟩⟩
    weeklySchedule := some [daily, daily, daily, daily, daily, daily, daily]
    exceptionSchedule := none
    scheduleDefault := some (.integer 0)
    listOfObjectPropertyReferences := none
    reliability := .noFaultDetected
    presentValue := none }

/-- The C2 special event: a matching period and two time values
declared in reverse chronological order at priority 1. -/
def c2Event : SpecialEvent :=
  ⟨.calendarEntry (.date ⟨255, 255, 255, 255⟩),
    [⟨⟨10, 0, 0, 0⟩, .integer 1⟩, ⟨⟨9, 0, 0, 0⟩, .integer 2⟩], 1⟩

def c2Obj : ScheduleObject :=
  { effectivePeriod := ⟨⟨0, 1, 1, 1⟩, ⟨254, 12, 31, 2⟩⟩
    weeklySchedule := none
    exceptionSchedule := some [c2Event]
    scheduleDefault := some (.integer 0)
    listOfObjectPropertyReferences := none
    reliability := .noFaultDetected
    presentValue := none }

/-- The C3 witness configuration: one matching event at priority 2, a
weekly schedule present underneath. -/
def c3Obj : ScheduleObject :=
  { effectivePeriod := ⟨⟨0, 1, 1, 1⟩, ⟨254, 12, 31, 2⟩⟩
    weeklySchedule := some [s1Daily, s1Daily, s1Daily, s1Daily, s1Daily, s1Daily, s1Daily]
    exceptionSchedule := some
      [⟨.calendarEntry (.date ⟨255, 255, 255, 255⟩), [⟨⟨1, 0, 0, 0⟩, .integer 5⟩], 2⟩]
    scheduleDefault := some (.integer 0)
    listOfObjectPropertyReferences := none
    reliability := .noFaultDetected
    presentValue := none }

/-- The C8 counterexample configuration: a well-typed exception event
at priority 99. -/
def c8Obj : ScheduleObject :=
  { effectivePeriod := ⟨⟨0, 1, 1, 1⟩, ⟨254, 12, 31, 2⟩⟩
    weeklySchedule := none
    exceptionSchedule := some
      [⟨.calendarEntry (.date ⟨255, 255, 255, 255⟩), [⟨⟨8, 0, 0, 0⟩, .integer 1⟩], 99⟩]
    scheduleDefault := some (.integer 0)
    listOfObjectPropertyReferences := none
    reliability := .noFaultDetected
    presentValue := none }

/-- The C9 daily schedule: an Integer entry under a Real default, the
type mismatch of scenario S4. -/
def c9Daily : DailySchedule := ⟨[⟨⟨9, 0, 0, 0⟩, .integer 8⟩]⟩

def c9Obj : ScheduleObject :=
  { effectivePeriod := ⟨⟨0, 1, 1, 1⟩, ⟨254, 12, 31, 2⟩⟩
    weeklySchedule := some [c9Daily, c9Daily, c9Daily, c9Daily, c9Daily, c9Daily, c9Daily]
    exceptionSchedule := none
    scheduleDefault := some (.real 72)
    listOfObjectPropertyReferences := none
    reliability := .configurationError
    presentValue := none }

/-- The invariant carried through the exception scan: a filled slot
never holds Null. -/
def slotsClean (slots : List (Option SchedValue)) : Prop :=
  ∀ s ∈ slots, ∀ v, s = some v → v.isNull = false

/-- The C10 witness configuration: no schedules at all, the default
alone being produced. -/
def c10Obj : ScheduleObject :=
  { effectivePeriod := ⟨⟨0, 1, 1, 1⟩, ⟨254, 12, 31, 2⟩⟩
    weeklySchedule := none
    exceptionSchedule := none
    scheduleDefault := some (.integer 7)
    listOfObjectPropertyReferences := none
    reliability := .noFaultDetected
    presentValue := none }

example : match_date ⟨120, 2, 29, 6⟩ ⟨255, 255, 32, 255⟩ = true := by decide

example : match_date ⟨121, 2, 28, 7⟩ ⟨255, 255, 32, 255⟩ = true := by decide

example : match_weeknday ⟨120, 1, 31, 5⟩ ⟨255, 6, 5⟩ = true := by decide

example : match_weeknday ⟨120, 1, 15, 3⟩ ⟨255, 10, 255⟩ = true := by decide

example : match_date_range ⟨121, 1, 1, 5⟩
    ⟨⟨120, 1, 1, 3⟩, ⟨120, 12, 31, 4⟩⟩ = false := by decide

example : eval emptyCalDir s1Obj ⟨120, 1, 6, 1⟩ ⟨7, 59, 0, 0⟩ = .ok (some (.integer 0)) := by
  decide

example : eval emptyCalDir s1Obj ⟨120, 1, 6, 1⟩ ⟨8, 0, 0, 0⟩ = .ok (some (.integer 8)) := by
  decide

example : eval emptyCalDir s1Obj ⟨120, 1, 6, 1⟩ ⟨14, 0, 0, 0⟩ = .ok (some (.integer 0)) := by
  decide

example : eval emptyCalDir s1Obj ⟨120, 1, 6, 1⟩ ⟨17, 30, 0, 0⟩ = .ok (some (.integer 42)) := by
  decide

example : check_reliability emptyPropDir s1Obj = .noFaultDetected := by decide

example : eval emptyCalDir s3Obj ⟨120, 1, 6, 1⟩ ⟨11, 0, 0, 0⟩ = .ok (some (.integer 77)) := by
  decide

example : eval emptyCalDir s3Obj ⟨120, 1, 6, 1⟩ ⟨13, 0, 0, 0⟩ = .ok (some (.integer 55)) := by
  decide

theorem tripleLe_iff_lex3 (a b : Nat × Nat × Nat) : tripleLe a b = true ↔ lex3 a b := by
  unfold tripleLe lex3
  split_ifs <;> simp only [decide_eq_true_eq] <;> omega

theorem lex3_trans (a b c : Nat × Nat × Nat) (h1 : lex3 a b) (h2 : lex3 b c) : lex3 a c := by
  unfold lex3 at h1 h2 ⊢
  omega

/-- Claim C4: when the date falls outside the effective period, eval
returns None at every time, consulting neither schedule and leaving the
object untouched (the embedding of eval is a pure function of the
configuration). -/
theorem eval_outside_effective_period (dir : CalendarDirectory) (obj : ScheduleObject)
    (edate : DateTuple) (etime : TimeTuple)
    (hgate : match_date_range edate obj.effectivePeriod = false) :
    eval dir obj edate etime = .ok none := by
  simp [eval, hgate]

theorem eval_outside_effective_period_witness :
    match_date_range ⟨121, 1, 1, 5⟩ c4Obj.effectivePeriod = false
    ∧ eval emptyCalDir c4Obj ⟨121, 1, 1, 5⟩ ⟨10, 0, 0, 0⟩ = .ok none :=
  ⟨by decide, eval_outside_effective_period emptyCalDir c4Obj ⟨121, 1, 1, 5⟩
    ⟨10, 0, 0, 0⟩ (by decide)⟩

/-- Claim C5: match_date_range holds exactly when the (year, month,
day) triple of the date lies between the start and end triples in
lexicographic order; the day-of-week octets of both endpoints are
ignored; and an inverted range matches no date at all. -/
theorem match_date_range_spec (date : DateTuple) (r : DateRange) :
    (match_date_range date r = true ↔
      (lex3 (dateTriple r.startDate) (dateTriple date)
        ∧ lex3 (dateTriple date) (dateTriple r.endDate)))
    ∧ (∀ w1 w2 : Nat,
        match_date_range date
          ⟨⟨r.startDate.year, r.startDate.month, r.startDate.day, w1⟩,
            ⟨r.endDate.year, r.endDate.month, r.endDate.day, w2⟩⟩
          = match_date_range date r)
    ∧ (¬ lex3 (dateTriple r.startDate) (dateTriple r.endDate) →
        match_date_range date r = false)
  := by
  refine ⟨?_, ?_, ?_⟩
  · simp [match_date_range, Bool.and_eq_true, tripleLe_iff_lex3]
  · intro w1 w2
    simp [match_date_range, dateTriple]
  · intro hinv
    by_contra hne
    rw [Bool.not_eq_false] at hne
    simp only [match_date_range, Bool.and_eq_true] at hne
    exact hinv (lex3_trans _ _ _ ((tripleLe_iff_lex3 _ _).mp hne.1)
      ((tripleLe_iff_lex3 _ _).mp hne.2))

theorem match_date_range_spec_witness :
    match_date_range ⟨120, 6, 15, 1⟩ ⟨⟨121, 1, 1, 1⟩, ⟨120, 12, 31, 2⟩⟩ = false :=
  (match_date_range_spec ⟨120, 6, 15, 1⟩ ⟨⟨121, 1, 1, 1⟩, ⟨120, 12, 31, 2⟩⟩).2.2
    (by decide)

/-- Claim C6: the special pattern octets of match_date - month 13
matches exactly the odd months and 14 exactly the even months; day 32
matches exactly the Gregorian last day of (year_offset + 1900, month),
so February 28 in common years and February 29 in leap years; day 33
matches odd days and day 34 even days. -/
theorem match_date_special_octets (y m d w : Nat)
    (hm : 1 ≤ m ∧ m ≤ 12) (hd : 1 ≤ d ∧ d ≤ 31) :
    (match_date ⟨y, m, d, w⟩ ⟨255, 13, 255, 255⟩ = true
      ↔ m ∈ ([1, 3, 5, 7, 9, 11] : List Nat))
    ∧ (match_date ⟨y, m, d, w⟩ ⟨255, 14, 255, 255⟩ = true
      ↔ m ∈ ([2, 4, 6, 8, 10, 12] : List Nat))
    ∧ (match_date ⟨y, m, d, w⟩ ⟨255, 255, 32, 255⟩ = true
      ↔ d = monthLength (y + 1900) m)
    ∧ (m = 2 → isLeapYear (y + 1900) = false →
        (match_date ⟨y, m, d, w⟩ ⟨255, 255, 32, 255⟩ = true ↔ d = 28))
    ∧ (m = 2 → isLeapYear (y + 1900) = true →
        (match_date ⟨y, m, d, w⟩ ⟨255, 255, 32, 255⟩ = true ↔ d = 29))
    ∧ (match_date ⟨y, m, d, w⟩ ⟨255, 255, 33, 255⟩ = true ↔ d % 2 = 1)
    ∧ (match_date ⟨y, m, d, w⟩ ⟨255, 255, 34, 255⟩ = true ↔ d % 2 = 0) := by
  obtain ⟨hm1, hm2⟩ := hm
  refine ⟨?_, ?_, ?_, ?_, ?_, ?_, ?_⟩
  · simp [match_date, yearMatch, monthMatch, dayMatch, dowMatch]
    try omega
  · simp [match_date, yearMatch, monthMatch, dayMatch, dowMatch]
    try omega
  · simp [match_date, yearMatch, monthMatch, dayMatch, dowMatch]
    try omega
  · intro hm2' hleap
    subst hm2'
    simp [match_date, yearMatch, monthMatch, dayMatch, dowMatch,
      monthLength, hleap]
    try omega
  · intro hm2' hleap
    subst hm2'
    simp [match_date, yearMatch, monthMatch, dayMatch, dowMatch,
      monthLength, hleap]
    try omega
  · simp [match_date, yearMatch, monthMatch, dayMatch, dowMatch]
    try omega
  · simp [match_date, yearMatch, monthMatch, dayMatch, dowMatch]
    try omega

theorem match_date_special_octets_witness :
    match_date ⟨120, 2, 29, 6⟩ ⟨255, 255, 32, 255⟩ = true := by
  have h := match_date_special_octets 120 2 29 6 (by omega) (by omega)
  exact (h.2.2.2.2.1 rfl (by decide)).mpr (by decide)

theorem monthMatch_out_of_domain (m mp : Nat) (hm : m ≤ 12)
    (hmp1 : 15 ≤ mp) (hmp2 : mp ≤ 254) : monthMatch m mp = false := by
  unfold monthMatch
  split_ifs with h1 h2 h3
  · exfalso; omega
  · exfalso; omega
  · exfalso; omega
  · simp only [beq_eq_false_iff_ne, ne_eq]
    omega

theorem dayMatch_out_of_domain (lastDay d dp : Nat) (hd : d ≤ 31)
    (hdp1 : 35 ≤ dp) (hdp2 : dp ≤ 254) : dayMatch lastDay d dp = false := by
  unfold dayMatch
  split_ifs with h1 h2 h3 h4
  · exfalso; omega
  · exfalso; omega
  · exfalso; omega
  · exfalso; omega
  · simp only [beq_eq_false_iff_ne, ne_eq]
    omega

theorem weekOfMonthMatch_out_of_domain (lastDay d wk : Nat)
    (hwk1 : 10 ≤ wk) (hwk2 : wk ≤ 254) : weekOfMonthMatch lastDay d wk = true := by
  have hne : wk ≠ 255 ∧ wk ≠ 1 ∧ wk ≠ 2 ∧ wk ≠ 3 ∧ wk ≠ 4 ∧ wk ≠ 5
      ∧ wk ≠ 6 ∧ wk ≠ 7 ∧ wk ≠ 8 ∧ wk ≠ 9 := by omega
  obtain ⟨a, b, c, e, f, g, h, i, j, k⟩ := hne
  simp [weekOfMonthMatch, a, b, c, e, f, g, h, i, j, k]

/-- Claim C7 counterexample: a week-of-month octet of 10 is outside the
defined domain, yet match_weeknday matches - the if-elif chain has no
final else, so the octet is ignored rather than treated as a
non-match. -/
theorem match_weeknday_octet_ten_matches :
    match_weeknday ⟨120, 1, 15, 3⟩ ⟨255, 10, 255⟩ = true := by decide

/-- Claim C7 as amended: an out-of-domain month octet (15..254) makes
match_date and match_weeknday return false, and an out-of-domain day
octet (35..254) likewise makes match_date return false, but an
out-of-domain week-of-month octet (10..254) in match_weeknday is
silently ignored - it matches like the wildcard 255; no input raises
(each matcher is a total Boolean function of the embedding). -/
theorem match_out_of_domain_octets (y m d w mp dp wk : Nat)
    (hm : 1 ≤ m ∧ m ≤ 12) (hd : 1 ≤ d ∧ d ≤ 31)
    (hmp : 15 ≤ mp ∧ mp ≤ 254) (hdp : 35 ≤ dp ∧ dp ≤ 254)
    (hwk : 10 ≤ wk ∧ wk ≤ 254) :
    (∀ yp dp2 wp, match_date ⟨y, m, d, w⟩ ⟨yp, mp, dp2, wp⟩ = false)
    ∧ (∀ yp mp2 wp, match_date ⟨y, m, d, w⟩ ⟨yp, mp2, dp, wp⟩ = false)
    ∧ (∀ wkp wp, match_weeknday ⟨y, m, d, w⟩ ⟨mp, wkp, wp⟩ = false)
    ∧ (∀ mp2 wp, match_weeknday ⟨y, m, d, w⟩ ⟨mp2, wk, wp⟩
        = match_weeknday ⟨y, m, d, w⟩ ⟨mp2, 255, wp⟩) := by
  have hmono := monthMatch_out_of_domain m mp hm.2 hmp.1 hmp.2
  have hdayo := dayMatch_out_of_domain (monthLength (y + 1900) m) d dp hd.2 hdp.1 hdp.2
  refine ⟨?_, ?_, ?_, ?_⟩
  · intro yp dp2 wp
    simp [match_date, hmono]
  · intro yp mp2 wp
    simp [match_date, hdayo]
  · intro wkp wp
    simp [match_weeknday, hmono]
  · intro mp2 wp
    have h1 := weekOfMonthMatch_out_of_domain (monthLength (y + 1900) m) d wk hwk.1 hwk.2
    have h2 : weekOfMonthMatch (monthLength (y + 1900) m) d 255 = true := by
      unfold weekOfMonthMatch
      simp
    simp [match_weeknday, h1, h2]

/-- Claim C1 is violated by the code: the two configurations differ
only by a permutation of one DailySchedule's entries, yet eval returns
Integer 2 for the declared order (the last declared entry with time at
or before 9:00 wins) and Integer 1 for the chronological order. -/
theorem eval_weekly_order_dependent :
    c1DailyA.daySchedule.Perm c1DailyB.daySchedule
    ∧ eval emptyCalDir (c1Obj c1DailyA) ⟨120, 1, 6, 1⟩ ⟨9, 0, 0, 0⟩
        = .ok (some (.integer 2))
    ∧ eval emptyCalDir (c1Obj c1DailyB) ⟨120, 1, 6, 1⟩ ⟨9, 0, 0, 0⟩
        = .ok (some (.integer 1)) := by
  refine ⟨by decide, by decide, by decide⟩

/-- Claim C2 is violated by the code: at query time 11:00 the scan
leaves Integer 2 in the priority-1 slot, the value of the last declared
qualifying entry, although the chronologically latest qualifying entry
carries Integer 1; eval consequently returns Integer 2. -/
theorem exception_scan_order_dependent :
    scanEvents emptyCalDir ⟨120, 1, 6, 1⟩ ⟨11, 0, 0, 0⟩ [c2Event] initSlots
      = .ok (initSlots.set 0 (some (.integer 2)))
    ∧ latestValue ⟨11, 0, 0, 0⟩ c2Event.listOfTimeValues = some (.integer 1)
    ∧ eval emptyCalDir c2Obj ⟨120, 1, 6, 1⟩ ⟨11, 0, 0, 0⟩ = .ok (some (.integer 2)) := by
  refine ⟨by decide, by decide, by decide⟩

theorem firstPresent_of_get (l : List (Option SchedValue)) (i : Nat) (v : SchedValue)
    (hi : l.get? i = some (some v))
    (hlow : ∀ j, j < i → l.get? j = some none) :
    firstPresent l = some v := by
  induction l generalizing i with
  | nil => simp [List.get?] at hi
  | cons a t ih =>
    cases i with
    | zero =>
      simp only [List.get?] at hi
      injection hi with hi2
      subst hi2
      rfl
    | succ i2 =>
      have ha := hlow 0 (Nat.succ_pos i2)
      simp only [List.get?] at ha
      injection ha with ha2
      subst ha2
      simp only [firstPresent]
      exact ih i2 (by simpa [List.get?] using hi)
        (fun j hj => by
          have := hlow (j + 1) (Nat.succ_lt_succ hj)
          simpa [List.get?] using this)

/-- Claim C3: the priority reduction of eval - when the date passes the
effective-period gate and the exception scan completes leaving a
non-Null value v at priority p with every priority below p absent, eval
returns v, the weekly schedule never being consulted. -/
theorem eval_priority_reduction (dir : CalendarDirectory) (obj : ScheduleObject)
    (edate : DateTuple) (etime : TimeTuple) (slots : List (Option SchedValue))
    (p : Nat) (v : SchedValue)
    (hgate : match_date_range edate obj.effectivePeriod = true)
    (hscan : scanEvents dir edate etime (obj.exceptionSchedule.getD []) initSlots
      = .ok slots)
    (hp : 1 ≤ p)
    (hv : v.isNull = false)
    (hslot : slots.get? (p - 1) = some (some v))
    (hlow : ∀ q, 1 ≤ q → q < p → slots.get? (q - 1) = some none) :
    eval dir obj edate etime = .ok (some v) := by
  have hfp : firstPresent slots = some v :=
    firstPresent_of_get slots (p - 1) v hslot
      (fun j hj => by
        have := hlow (j + 1) (by omega) (by omega)
        simpa using this)
  simp [eval, hgate, hscan, hfp]

theorem eval_priority_reduction_witness :
    eval emptyCalDir c3Obj ⟨120, 1, 6, 1⟩ ⟨9, 0, 0, 0⟩ = .ok (some (.integer 5)) := by
  have hscan : scanEvents emptyCalDir ⟨120, 1, 6, 1⟩ ⟨9, 0, 0, 0⟩
      (c3Obj.exceptionSchedule.getD []) initSlots
      = .ok (initSlots.set 1 (some (.integer 5))) := by decide
  exact eval_priority_reduction emptyCalDir c3Obj ⟨120, 1, 6, 1⟩ ⟨9, 0, 0, 0⟩
    (initSlots.set 1 (some (.integer 5))) 2 (.integer 5) (by decide) hscan
    (by omega) (by decide) (by decide)
    (fun q h1 h2 => by
      have hq : q = 1 := by omega
      subst hq
      decide)

theorem match_out_of_domain_octets_witness :
    match_date ⟨120, 6, 15, 1⟩ ⟨255, 15, 255, 255⟩ = false
    ∧ match_date ⟨120, 6, 15, 1⟩ ⟨255, 255, 40, 255⟩ = false
    ∧ match_weeknday ⟨120, 6, 15, 1⟩ ⟨255, 10, 255⟩
        = match_weeknday ⟨120, 6, 15, 1⟩ ⟨255, 255, 255⟩ :=
  ⟨(match_out_of_domain_octets 120 6 15 1 15 40 10 (by decide) (by decide)
      (by decide) (by decide) (by decide)).1 255 255 255,
    (match_out_of_domain_octets 120 6 15 1 15 40 10 (by decide) (by decide)
      (by decide) (by decide) (by decide)).2.1 255 255 255,
    (match_out_of_domain_octets 120 6 15 1 15 40 10 (by decide) (by decide)
      (by decide) (by decide) (by decide)).2.2.2 255 255⟩

theorem weekly_all_iff (cls : ValClass) (l : List DailySchedule) :
    (l.all (fun ds => ds.daySchedule.all (weeklyTimeValueOk cls)) = true)
    ↔ ((∀ ds ∈ l, ∀ tv ∈ ds.daySchedule,
          tv.value.classOf = .nullC ∨ tv.value.classOf = cls)
        ∧ (∀ ds ∈ l, ∀ tv ∈ ds.daySchedule, timeHasWildcard tv.time = false)) := by
  simp only [List.all_eq_true, weeklyTimeValueOk, Bool.and_eq_true, Bool.or_eq_true,
    beq_iff_eq, Bool.not_eq_true']
  constructor
  · intro h
    exact ⟨fun ds hds tv htv => (h ds hds tv htv).1,
      fun ds hds tv htv => (h ds hds tv htv).2⟩
  · intro h ds hds tv htv
    exact ⟨h.1 ds hds tv htv, h.2 ds hds tv htv⟩

theorem exception_all_iff (cls : ValClass) (l : List SpecialEvent) :
    (l.all (fun se => se.listOfTimeValues.all (exceptionTimeValueOk cls)) = true)
    ↔ ∀ se ∈ l, ∀ tv ∈ se.listOfTimeValues,
        tv.value.classOf = .nullC ∨ tv.value.classOf = cls := by
  simp only [List.all_eq_true, exceptionTimeValueOk, Bool.or_eq_true, beq_iff_eq]

theorem propRefOk_iff (dir : PropDirectory) (cls : ValClass) (r : PropRef) :
    propRefOk dir cls r = true ↔ specRefDatatype dir r = some cls := by
  unfold propRefOk specRefDatatype
  cases hd : dir r.objectType r.propertyIdentifier with
  | none => simp
  | some pd =>
    cases pd with
    | atomic c => simp [beq_iff_eq]
    | arrayOf sub =>
      cases hi : r.propertyArrayIndex with
      | none => simp
      | some i =>
        cases i with
        | zero =>
          simp only [beq_iff_eq, Option.some_inj]
          exact eq_comm
        | succ i2 => simp [beq_iff_eq]

theorem refs_all_iff (dir : PropDirectory) (cls : ValClass) (l : List PropRef) :
    (l.all (propRefOk dir cls) = true)
    ↔ ∀ r ∈ l, specRefDatatype dir r = some cls := by
  simp only [List.all_eq_true, propRefOk_iff]

/-- Claim C8 as amended: the checker always lands on exactly one of the
two states, and reports noFaultDetected exactly when scheduleDefault is
present (its non-Nullness, part of I1, goes unchecked), some schedule
is present (I2), every schedule value is Null or of the schedule
datatype class (I3), no weekly time holds a wildcard octet (I4) and
every property reference resolves to the schedule datatype (I5);
exception priorities (I6) are never examined. -/
theorem check_reliability_spec (dir : PropDirectory) (obj : ScheduleObject) :
    (check_reliability dir obj = .noFaultDetected
      ∨ check_reliability dir obj = .configurationError)
    ∧ (check_reliability dir obj = .noFaultDetected ↔
        ∃ sd, obj.scheduleDefault = some sd ∧ specI2 obj ∧ specI3 obj sd.classOf
          ∧ specI4 obj ∧ specI5 dir obj sd.classOf) := by
  constructor
  · cases h : check_reliability dir obj
    · exact Or.inl rfl
    · exact Or.inr rfl
  · unfold check_reliability
    cases hsd : obj.scheduleDefault with
    | none =>
      constructor
      · intro h
        exact Reliability.noConfusion h
      · rintro ⟨sd2, hsd2, _⟩
        exact Option.noConfusion hsd2
    | some sd =>
      dsimp only
      by_cases hboth : (obj.weeklySchedule.isNone && obj.exceptionSchedule.isNone) = true
      · rw [if_pos hboth]
        simp only [Bool.and_eq_true, Option.isNone_iff_eq_none] at hboth
        constructor
        · intro h
          cases h
        · rintro ⟨sd2, hsd2, hi2, _⟩
          rcases hi2 with h1 | h1 <;>
            simp [hboth.1, hboth.2, Option.isSome_iff_exists] at h1
      · rw [if_neg hboth]
        simp only [Bool.and_eq_true, Option.isNone_iff_eq_none, not_and_or] at hboth
        by_cases hall : (((obj.weeklySchedule.getD []).all (fun ds =>
              ds.daySchedule.all (weeklyTimeValueOk sd.classOf)))
            && ((obj.exceptionSchedule.getD []).all (fun se =>
              se.listOfTimeValues.all (exceptionTimeValueOk sd.classOf)))
            && ((obj.listOfObjectPropertyReferences.getD []).all
              (propRefOk dir sd.classOf))) = true
        · rw [if_pos hall]
          simp only [Bool.and_eq_true] at hall
          constructor
          · intro _
            refine ⟨sd, rfl, ?_, ?_, ?_, ?_⟩
            · unfold specI2
              rcases hboth with h1 | h1
              · exact Or.inl (Option.isSome_iff_ne_none.mpr h1)
              · exact Or.inr (Option.isSome_iff_ne_none.mpr h1)
            · exact ⟨((weekly_all_iff _ _).mp hall.1.1).1,
                (exception_all_iff _ _).mp hall.1.2⟩
            · exact ((weekly_all_iff _ _).mp hall.1.1).2
            · exact (refs_all_iff _ _ _).mp hall.2
          · intro _
            rfl
        · rw [if_neg hall]
          constructor
          · intro h
            cases h
          · rintro ⟨sd2, hsd2, _, hi3, hi4, hi5⟩
            injection hsd2 with hsd3
            subst hsd3
            exact absurd
              ((Bool.and_eq_true _ _).mpr
                ⟨(Bool.and_eq_true _ _).mpr
                  ⟨(weekly_all_iff _ _).mpr ⟨hi3.1, hi4⟩,
                    (exception_all_iff _ _).mpr hi3.2⟩,
                  (refs_all_iff _ _ _).mpr hi5⟩)
              hall

/-- Claim C8 counterexample: invariant I6 fails - the sole exception
event carries priority 99 - yet the checker reports noFaultDetected,
because priorities are never examined. -/
theorem check_reliability_ignores_priority :
    check_reliability emptyPropDir c8Obj = .noFaultDetected ∧ ¬ specI6 c8Obj := by
  constructor
  · decide
  · decide

theorem check_reliability_spec_witness :
    check_reliability emptyPropDir s1Obj = .noFaultDetected :=
  (check_reliability_spec emptyPropDir s1Obj).2.mpr
    ⟨.integer 0, rfl, by decide, by decide, by decide, by decide⟩

/-- Claim C9 counterexample: the configuration carries
configurationError - and the checker reproduces exactly that state from
the Integer entry under the Real default - yet eval still returns the
Integer 8 value rather than None: eval never reads reliability. -/
theorem eval_ignores_reliability :
    c9Obj.reliability = .configurationError
    ∧ check_reliability emptyPropDir c9Obj = .configurationError
    ∧ eval emptyCalDir c9Obj ⟨120, 1, 6, 1⟩ ⟨10, 0, 0, 0⟩ = .ok (some (.integer 8)) := by
  refine ⟨rfl, by decide, by decide⟩

/-- Claim C9 as amended: the reliability guard lives in process_task,
which returns with the object untouched - presentValue included -
whenever reliability differs from noFaultDetected, never invoking the
schedule machinery; eval itself does not consult reliability. -/
theorem process_task_reliability_guard (dir : CalendarDirectory) (obj : ScheduleObject)
    (edate : DateTuple) (etime : TimeTuple)
    (h : obj.reliability ≠ .noFaultDetected) :
    process_task dir obj edate etime = .ok obj := by
  simp [process_task, h]

theorem process_task_reliability_guard_witness :
    process_task emptyCalDir c9Obj ⟨120, 1, 6, 1⟩ ⟨10, 0, 0, 0⟩ = .ok c9Obj :=
  process_task_reliability_guard emptyCalDir c9Obj ⟨120, 1, 6, 1⟩ ⟨10, 0, 0, 0⟩
    (by decide)

theorem slotsClean_initSlots : slotsClean initSlots := by
  intro s hs v hv
  have hn : s = none := List.eq_of_mem_replicate hs
  subst hn
  exact Option.noConfusion hv

theorem slotsClean_set (slots : List (Option SchedValue)) (i : Nat)
    (x : Option SchedValue) (h : slotsClean slots)
    (hx : ∀ v, x = some v → v.isNull = false) : slotsClean (slots.set i x) := by
  intro s hs v hv
  rcases List.mem_or_eq_of_mem_set hs with h1 | h2
  · exact h s h1 v hv
  · subst h2
    exact hx v hv

theorem scanTimeValues_clean (etime : TimeTuple) (pr : Nat) (tvs : List TimeValue) :
    ∀ slots slots2, slotsClean slots →
      scanTimeValues etime pr tvs slots = .ok slots2 → slotsClean slots2 := by
  induction tvs with
  | nil =>
    intro slots slots2 h heq
    injection heq with heq2
    subst heq2
    exact h
  | cons tv rest ih =>
    intro slots slots2 h heq
    rw [scanTimeValues] at heq
    by_cases ht : timeLe tv.time etime = true
    · rw [if_pos ht] at heq
      cases hpi : pyIndex pr with
      | none =>
        rw [hpi] at heq
        exact Except.noConfusion heq
      | some i =>
        rw [hpi] at heq
        refine ih _ _ (slotsClean_set _ _ _ h ?_) heq
        intro v hv
        by_cases hn : tv.value.isNull = true
        · rw [if_pos hn] at hv
          exact Option.noConfusion hv
        · rw [if_neg hn] at hv
          injection hv with hv2
          subst hv2
          simpa using hn
    · rw [if_neg ht] at heq
      exact ih _ _ h heq

theorem scanEvents_clean (dir : CalendarDirectory) (edate : DateTuple)
    (etime : TimeTuple) (evs : List SpecialEvent) :
    ∀ slots slots2, slotsClean slots →
      scanEvents dir edate etime evs slots = .ok slots2 → slotsClean slots2 := by
  induction evs with
  | nil =>
    intro slots slots2 h heq
    injection heq with heq2
    subst heq2
    exact h
  | cons ev rest ih =>
    intro slots slots2 h heq
    rw [scanEvents] at heq
    cases hm : eventMatch dir edate ev with
    | error e =>
      rw [hm] at heq
      exact Except.noConfusion heq
    | ok b =>
      rw [hm] at heq
      cases b with
      | false => exact ih _ _ h heq
      | true =>
        cases hs : scanTimeValues etime ev.priority ev.listOfTimeValues slots with
        | error e =>
          rw [hs] at heq
          exact Except.noConfusion heq
        | ok slotsMid =>
          rw [hs] at heq
          exact ih _ _ (scanTimeValues_clean etime ev.priority ev.listOfTimeValues
            slots slotsMid h hs) heq

theorem firstPresent_mem (l : List (Option SchedValue)) (v : SchedValue)
    (h : firstPresent l = some v) : some v ∈ l := by
  induction l with
  | nil => exact Option.noConfusion h
  | cons a t ih =>
    cases a with
    | none =>
      rw [firstPresent] at h
      exact List.mem_cons_of_mem _ (ih h)
    | some w =>
      rw [firstPresent] at h
      injection h with h2
      subst h2
      exact List.mem_cons_self _ _

theorem weeklyLoop_cases (dflt : Option SchedValue) (etime : TimeTuple)
    (tvs : List TimeValue) :
    ∀ acc, (acc = dflt ∨ ∃ u, acc = some u ∧ u.isNull = false) →
      (weeklyLoop dflt etime tvs acc = dflt
        ∨ ∃ u, weeklyLoop dflt etime tvs acc = some u ∧ u.isNull = false) := by
  induction tvs with
  | nil =>
    intro acc h
    exact h
  | cons tv rest ih =>
    intro acc h
    rw [weeklyLoop]
    apply ih
    by_cases ht : timeLe tv.time etime = true
    · rw [if_pos ht]
      by_cases hn : tv.value.isNull = true
      · rw [if_pos hn]
        exact Or.inl rfl
      · rw [if_neg hn]
        exact Or.inr ⟨tv.value, rfl, by simpa using hn⟩
    · rw [if_neg ht]
      exact h

/-- Claim C10: with a non-Null scheduleDefault and a date passing the
effective-period gate, a completed eval never yields None or Null - the
priority slot table only holds non-Null values (Null entries clear
their slot) and the weekly fallback bottoms out at scheduleDefault. -/
theorem eval_result_not_null (dir : CalendarDirectory) (obj : ScheduleObject)
    (edate : DateTuple) (etime : TimeTuple) (r : Option SchedValue) (d0 : SchedValue)
    (hdef : obj.scheduleDefault = some d0)
    (hnn : d0.isNull = false)
    (hgate : match_date_range edate obj.effectivePeriod = true)
    (hok : eval dir obj edate etime = .ok r) :
    ∃ v, r = some v ∧ v.isNull = false := by
  rw [eval] at hok
  rw [hgate] at hok
  simp only [if_true] at hok
  cases hscan : scanEvents dir edate etime (obj.exceptionSchedule.getD []) initSlots with
  | error e =>
    rw [hscan] at hok
    exact Except.noConfusion hok
  | ok slots =>
    rw [hscan] at hok
    dsimp only at hok
    have hclean : slotsClean slots :=
      scanEvents_clean dir edate etime _ _ _ slotsClean_initSlots hscan
    cases hfp : firstPresent slots with
    | some v =>
      rw [hfp] at hok
      injection hok with hok2
      exact ⟨v, hok2.symm, hclean _ (firstPresent_mem slots v hfp) v rfl⟩
    | none =>
      rw [hfp] at hok
      dsimp only at hok
      rw [weeklyFallback] at hok
      cases hws : obj.weeklySchedule with
      | none =>
        rw [hws] at hok
        injection hok with hok2
        exact ⟨d0, by rw [← hok2, hdef], hnn⟩
      | some ws =>
        rw [hws] at hok
        dsimp only at hok
        by_cases hdw : edate.dayOfWeek = 0
        · rw [if_pos hdw] at hok
          exact Except.noConfusion hok
        · rw [if_neg hdw] at hok
          cases hget : ws.get? (edate.dayOfWeek - 1) with
          | none =>
            rw [hget] at hok
            exact Except.noConfusion hok
          | some daily =>
            rw [hget] at hok
            injection hok with hok2
            rcases weeklyLoop_cases obj.scheduleDefault etime daily.daySchedule
              obj.scheduleDefault (Or.inl rfl) with hcase | ⟨u, hu, hun⟩
            · exact ⟨d0, by rw [← hok2, hcase, hdef], hnn⟩
            · exact ⟨u, by rw [← hok2, hu], hun⟩

theorem eval_result_not_null_witness :
    ∃ v, some (SchedValue.integer 7) = some v ∧ v.isNull = false :=
  eval_result_not_null emptyCalDir c10Obj ⟨120, 1, 6, 1⟩ ⟨10, 0, 0, 0⟩
    (some (.integer 7)) (.integer 7) rfl rfl (by decide) (by decide)

